import Mathlib

/-!
# Shallow embedding of `src/sentry/static/sentry/app/views/organizationEvents/eventsChart.jsx`

The component `EventsChart` manages a time range, a zoom-history stack and a
deferred-commit slot around an external charting widget.  This file embeds the
instance state (`this.currentPeriod`, `this.history`, `this.zooming`) and the
handlers (`setPeriod`, `saveCurrentPeriod`, `useHourlyInterval`,
`handleZoomRestore`, `handleDataZoom`, `handleChartFinished`,
`shouldComponentUpdate`, `handleChartReady`) as pure Lean functions, with the
externally visible calls (`onZoom`, `actions.updateParams`,
`chart.dispatchAction`) reified as an effect list.

Conventions of the embedding:
* A JS `Date` / `moment` value is identified with its millisecond timestamp
  (`+date`), an `Int`.
* `null` / `undefined` inputs are `none`.
* A handler that would throw a `TypeError` (property access on `undefined`)
  returns `none` in an `Option` result; a silent defensive return yields
  `some` of an unchanged state with no effects.
* The `moment` library (an external collaborator) is modelled by
  `momentUtcFormat` (UTC formatting at second precision, milliseconds
  truncated) and by truncated-toward-zero hour differences (`moment`'s
  `absFloor`); `moment.utc` applied to a canonical formatted string
  round-trips, so re-formatting such a string is the identity.
-/

namespace EventsChart

/-- Milliseconds since the Unix epoch; JS `Date` and `moment` values are
identified with their millisecond timestamp. -/
abbrev Timestamp := Int

def msPerSecond : Int := 1000

def msPerHour : Int := 3600000

def msPerDay : Int := 86400000

/-- Civil Gregorian date `(year, month, day)` from a count of days since
1970-01-01, used to model the `moment` library's UTC formatting. -/
def civilFromDays (z0 : Int) : Int × Nat × Nat :=
  let z : Int := z0 + 719468
  let era : Int := Int.ediv z 146097
  let doe : Nat := (z - era * 146097).toNat
  let yoe : Nat := (doe - doe / 1460 + doe / 36524 - doe / 146096) / 365
  let doy : Nat := doe - (365 * yoe + yoe / 4 - yoe / 100)
  let mp : Nat := (5 * doy + 2) / 153
  let d : Nat := doy - (153 * mp + 2) / 5 + 1
  let m : Nat := if mp < 10 then mp + 3 else mp - 9
  let y : Int := era * 400 + (yoe : Int) + (if m ≤ 2 then 1 else 0)
  (y, m, d)

def pad2 (n : Nat) : String :=
  if n < 10 then "0" ++ toString n else toString n

def pad4 (y : Int) : String :=
  if y < 0 then "-" ++ toString (-y)
  else if y < 10 then "000" ++ toString y
  else if y < 100 then "00" ++ toString y
  else if y < 1000 then "0" ++ toString y
  else toString y

/-- Models `moment.utc(date).format(moment.HTML5_FMT.DATETIME_LOCAL_SECONDS)`
on a raw timestamp: the canonical `YYYY-MM-DDTHH:mm:ss` string of the UTC
instant, at second precision (milliseconds truncated toward the past). -/
def momentUtcFormat (t : Timestamp) : String :=
  let secs : Int := Int.ediv t 1000
  let days : Int := Int.ediv secs 86400
  let sod : Nat := (Int.emod secs 86400).toNat
  let c := civilFromDays days
  pad4 c.1 ++ "-" ++ pad2 c.2.1 ++ "-" ++ pad2 c.2.2 ++ "T" ++
    pad2 (sod / 3600) ++ ":" ++ pad2 (sod / 60 % 60) ++ ":" ++ pad2 (sod % 60)

/-- A date-like JS value flowing into `getDate`: either a `Date` / `moment`
(identified with its millisecond timestamp), or an already-canonical
date-time string, as stored in zoom-history entries.  `moment.utc` on a
canonical string round-trips, so formatting it again is the identity
(`format` is idempotent). -/
inductive DateVal where
  | date (t : Timestamp)
  | canonical (s : String)
deriving DecidableEq, Repr

def formatDateVal : DateVal → String
  | .date t => momentUtcFormat t
  | .canonical s => s

/-- `const getDate = date => date ? moment.utc(date).format(moment.HTML5_FMT.DATETIME_LOCAL_SECONDS) : null;` -/
def getDate : Option DateVal → Option String
  | none => none
  | some d => some (formatDateVal d)

/-- `this.currentPeriod = {period, start: getDate(...), end: getDate(...)}`:
a string-normalized snapshot of a range. -/
structure CurrentPeriod where
  period : Option String
  start : Option String
  «end» : Option String
deriving DecidableEq, Repr

/-- The `{period, start, end}` argument taken by `setPeriod` and
`saveCurrentPeriod`: `start` / `end` may be `Date`s or `moment`s, canonical
strings coming back out of the history stack, or null. -/
structure PeriodArg where
  period : Option String
  start : Option DateVal
  «end» : Option DateVal
deriving DecidableEq, Repr

/-- `saveCurrentPeriod = props => { this.currentPeriod = {period: props.period,
start: getDate(props.start), end: getDate(props.end)}; }` -/
def saveCurrentPeriod (r : PeriodArg) : CurrentPeriod :=
  { period := r.period, start := getDate r.start, «end» := getDate r.«end» }

/-- The props the controller reads: `period` (`string` or null), `start` /
`end` (`Date` or null, identified with the timestamp), `utc`, the `zoom` flag,
and whether an `onZoom` callback prop was supplied. -/
structure Props where
  period : Option String
  start : Option Timestamp
  «end» : Option Timestamp
  utc : Bool
  zoom : Bool
  onZoom : Bool
deriving DecidableEq, Repr

def periodArgOfProps (p : Props) : PeriodArg :=
  { period := p.period
    start := p.start.map DateVal.date
    «end» := p.«end».map DateVal.date }

/-- History entries hold canonical strings (or null); passing one back to
`setPeriod` (echarts back navigation / restore) feeds those strings to
`getDate` again. -/
def periodArgOfCurrent (c : CurrentPeriod) : PeriodArg :=
  { period := c.period
    start := c.start.map DateVal.canonical
    «end» := c.«end».map DateVal.canonical }

/-- Observable calls the component makes to its collaborators. -/
inductive Effect where
  | onZoom (period : Option String) (start «end» : Option String)
  | updateParams (statsPeriod : Option String) (start «end» : Option String) (zoom : String)
  | dispatchAction (type key : String) (dataZoomSelectActive : Bool)
deriving DecidableEq, Repr

def Effect.isUpdateParams : Effect → Bool
  | .updateParams _ _ _ _ => true
  | _ => false

def countUpdateParams (l : List Effect) : Nat :=
  (l.filter Effect.isUpdateParams).length

/-- Instance state of `EventsChart`: `this.currentPeriod`, `this.history`
(most recent last, as a JS array pushed/popped at the end), and `this.zooming`
(the pending-commit closure, represented by the `{period, start, end}` it
captured; formatted strings are recomputed by `getDate`, which is pure). -/
structure EventsChartState where
  currentPeriod : CurrentPeriod
  history : List CurrentPeriod
  zooming : Option PeriodArg
deriving DecidableEq, Repr

def countPendingCommits (s : EventsChartState) : Nat :=
  match s.zooming with
  | none => 0
  | some _ => 1

/-- The constructor: `this.history = []; this.saveCurrentPeriod(props);`
(and no pending commit closure yet). -/
def initialState (props : Props) : EventsChartState :=
  { currentPeriod := saveCurrentPeriod (periodArgOfProps props)
    history := []
    zooming := none }

/-- `setPeriod = ({period, start, end}, saveHistory) => ...`: formats the
dates, pushes `this.currentPeriod` when `saveHistory` is truthy, fires the
`onZoom` prop (when present) with the formatted range, and stores the
deferred-commit closure in `this.zooming`. -/
def setPeriod (props : Props) (s : EventsChartState) (r : PeriodArg) (saveHistory : Bool) :
    EventsChartState × List Effect :=
  let startFormatted := getDate r.start
  let endFormatted := getDate r.«end»
  let history := if saveHistory then s.history ++ [s.currentPeriod] else s.history
  let effects := if props.onZoom then [Effect.onZoom r.period startFormatted endFormatted] else []
  ({ s with history := history, zooming := some r }, effects)

/-- `handleChartFinished = () => { if (typeof this.zooming === 'function')
{ this.zooming(); this.zooming = null; } }`; the stored closure runs
`this.props.actions.updateParams({statsPeriod: period, start: startFormatted,
end: endFormatted, zoom: '1'})` and then `this.saveCurrentPeriod({period,
start, end})`. -/
def handleChartFinished (s : EventsChartState) : EventsChartState × List Effect :=
  match s.zooming with
  | none => (s, [])
  | some z =>
      ({ s with currentPeriod := saveCurrentPeriod z, zooming := none },
       [Effect.updateParams z.period (getDate z.start) (getDate z.«end») "1"])

/-- `handleZoomRestore = (evt, chart) => { if (!this.history.length) return;
this.setPeriod(this.history[0]); this.history = []; }` — `saveHistory` is
omitted at this call site, hence falsy. -/
def handleZoomRestore (props : Props) (s : EventsChartState) :
    EventsChartState × List Effect :=
  match s.history.head? with
  | none => (s, [])
  | some first =>
      let r := setPeriod props s (periodArgOfCurrent first) false
      ({ r.1 with history := [] }, r.2)

/-- JS `String.prototype.endsWith`: a suffix check, modelled on the character
list. -/
def jsEndsWith (s p : String) : Bool := p.data.isSuffixOf s.data

/-- `moment(end).diff(start, 'hours')`: the signed millisecond difference
divided by one hour, truncated toward zero (`moment`'s `absFloor`); `none`
models the `NaN` difference produced by a missing (`null`) date. -/
def momentDiffHours : Option Timestamp → Option Timestamp → Option Int
  | some e, some s => some (Int.tdiv (e - s) msPerHour)
  | _, _ => none

/-- `useHourlyInterval = () => { if (typeof period === 'string') return
period.endsWith('h') || period === '1d'; return moment(end).diff(start,
'hours') <= 24; }` — a `NaN` difference compares false. -/
def useHourlyInterval (props : Props) : Bool :=
  match props.period with
  | some period => jsEndsWith period "h" || period == "1d"
  | none =>
      match momentDiffHours props.«end» props.start with
      | some d => decide (d ≤ 24)
      | none => false

/-- The x-axis model read off `chart.getModel().option.xAxis[0]`:
`rangeStart` / `rangeEnd` are data indices of the zoom selection, or null. -/
structure Axis where
  rangeStart : Option Nat
  rangeEnd : Option Nat
deriving DecidableEq, Repr

/-- One plotted series; `data` is the list of `[timestamp, value]` points. -/
structure SeriesEntry where
  data : List (Timestamp × Int)
deriving DecidableEq, Repr

/-- `chart.getModel().option`: the `xAxis` array and the `series` array. -/
structure ChartModel where
  xAxis : List Axis
  series : List SeriesEntry
deriving DecidableEq, Repr

/-- `handleDataZoom = (evt, chart) => ...`.  The overall `none` result models
the handler throwing a `TypeError`: `xAxis[0]` being absent, or — in the
zoom-in branch — `firstSeries.data[idx][0]` evaluated with a null or
out-of-range index (`firstSeries.data[idx]` is `undefined`), including the
case where `series` is empty so `firstSeries` itself is `undefined`.  The
cleared-selection branch (`rangeStart === null && rangeEnd === null`) pops the
most recent history entry (`this.history.pop()`), returning silently when the
history is empty, and never touches `firstSeries`. -/
def handleDataZoom (props : Props) (s : EventsChartState) (m : ChartModel) :
    Option (EventsChartState × List Effect) :=
  match m.xAxis.head? with
  | none => none
  | some axis =>
      match axis.rangeStart, axis.rangeEnd with
      | none, none =>
          match s.history.getLast? with
          | none => some (s, [])
          | some previousPeriod =>
              some (setPeriod props { s with history := s.history.dropLast }
                (periodArgOfCurrent previousPeriod) false)
      | rs, re =>
          match m.series.head? with
          | none => none
          | some firstSeries =>
              let start? := rs.bind fun i => (firstSeries.data[i]?).map Prod.fst
              let end? := re.bind fun i => (firstSeries.data[i]?).map Prod.fst
              match start?, end? with
              | some start, some endTs =>
                  let endAdjusted :=
                    endTs + (if useHourlyInterval props then msPerHour else msPerDay) - msPerSecond
                  some (setPeriod props s
                    { period := none
                      start := some (DateVal.date start)
                      «end» := some (DateVal.date endAdjusted) } true)
              | _, _ => none

/-- `pick(props, ['period', 'start', 'end'])`. -/
structure PeriodKeys where
  period : Option String
  start : Option Timestamp
  «end» : Option Timestamp
deriving DecidableEq, Repr

def pickPeriodKeys (p : Props) : PeriodKeys :=
  { period := p.period, start := p.start, «end» := p.«end» }

/-- lodash's `dateComparator`: two `Date`s compare by `+value === +other`;
a `Date` being identified with its millisecond timestamp, this is timestamp
equality. -/
def dateComparator (value other : Timestamp) : Bool := value == other

def optDateEq : Option Timestamp → Option Timestamp → Bool
  | none, none => true
  | some a, some b => dateComparator a b
  | _, _ => false

/-- `isEqualWith(a, b, dateComparator)` on the picked three-field records:
dates by timestamp, everything else (the `period` string, nulls) by the
default structural equality. -/
def isEqualWithDates (a b : PeriodKeys) : Bool :=
  a.period == b.period && optDateEq a.start b.start && optDateEq a.«end» b.«end»

/-- `shouldComponentUpdate(nextProps, nextState)`: returns `false` when
`nextProps.zoom` is truthy or the picked period fields are equal under the
date-aware comparison, `true` otherwise. -/
def shouldComponentUpdate (props nextProps : Props) : Bool :=
  let nextPeriod := pickPeriodKeys nextProps
  let currentPeriod := pickPeriodKeys props
  if nextProps.zoom || isEqualWithDates currentPeriod nextPeriod then false
  else true

/-- `handleChartReady = chart => chart.dispatchAction({type:
'takeGlobalCursor', key: 'dataZoomSelect', dataZoomSelectActive: true})`. -/
def handleChartReady : List Effect :=
  [Effect.dispatchAction "takeGlobalCursor" "dataZoomSelect" true]

/-- One full zoom gesture: a zoom-in `setPeriod(range, true)` followed by the
chart's `finished` event committing the pending closure. -/
def zoomGesture (props : Props) (s : EventsChartState) (r : PeriodArg) : EventsChartState :=
  (handleChartFinished (setPeriod props s r true).1).1

/-- `N` sequential zoom gestures. -/
def zoomGestures (props : Props) (s : EventsChartState) : List PeriodArg → EventsChartState
  | [] => s
  | r :: rs => zoomGestures props (zoomGesture props s r) rs

/-- The history entries pushed by successive zoom gestures, given the
`currentPeriod` in force before the first of them. -/
def pushedEntries (c : CurrentPeriod) : List PeriodArg → List CurrentPeriod
  | [] => []
  | r :: rs => c :: pushedEntries (saveCurrentPeriod r) rs

/-- A `datazoom` event whose axis reports a cleared selection (both range
markers null): the chart's own back gesture. -/
def clearedModel : ChartModel :=
  { xAxis := [{ rangeStart := none, rangeEnd := none }], series := [] }

/-- Iterate the back gesture (`datazoom` with cleared selection) `n` times,
collecting the effects in order of occurrence. -/
def iterBackGesture (props : Props) : Nat → EventsChartState → EventsChartState × List Effect
  | 0, s => (s, [])
  | n + 1, s =>
      match handleDataZoom props s clearedModel with
      | none => (s, [])
      | some (s1, effs) =>
          let r := iterBackGesture props n s1
          (r.1, effs ++ r.2)

/-! ## Helper lemmas -/

theorem getDate_map_canonical (o : Option String) :
    getDate (o.map DateVal.canonical) = o := by
  cases o <;> rfl

theorem zoomGesture_eq (props : Props) (s : EventsChartState) (r : PeriodArg) :
    zoomGesture props s r =
      { currentPeriod := saveCurrentPeriod r
        history := s.history ++ [s.currentPeriod]
        zooming := none } := rfl

theorem zoomGestures_history (props : Props) (rs : List PeriodArg) :
    ∀ s : EventsChartState,
      (zoomGestures props s rs).history = s.history ++ pushedEntries s.currentPeriod rs := by
  induction rs with
  | nil => intro s; simp [zoomGestures, pushedEntries]
  | cons r rs ih =>
      intro s
      simp [zoomGestures, zoomGesture_eq, pushedEntries, ih]

theorem pushedEntries_length (rs : List PeriodArg) :
    ∀ c : CurrentPeriod, (pushedEntries c rs).length = rs.length := by
  induction rs with
  | nil => intro c; rfl
  | cons r rs ih => intro c; simp [pushedEntries, ih]

theorem history_getLast?_concat (l : List CurrentPeriod) (e : CurrentPeriod) :
    (l ++ [e]).getLast? = some e := by
  simp

theorem history_dropLast_concat (l : List CurrentPeriod) (e : CurrentPeriod) :
    (l ++ [e]).dropLast = l := by
  simp

theorem handleDataZoom_cleared_nil (props : Props) (s : EventsChartState)
    (h : s.history = []) :
    handleDataZoom props s clearedModel = some (s, []) := by
  simp [handleDataZoom, clearedModel, h]

theorem handleDataZoom_cleared_concat (props : Props) (s : EventsChartState)
    (pre : List CurrentPeriod) (e : CurrentPeriod) (h : s.history = pre ++ [e]) :
    handleDataZoom props s clearedModel =
      some (setPeriod props { s with history := pre } (periodArgOfCurrent e) false) := by
  simp [handleDataZoom, clearedModel, h, history_getLast?_concat]

theorem iterBackGesture_empty (props : Props) :
    ∀ (n : Nat) (s : EventsChartState), s.history = [] →
      iterBackGesture props n s = (s, []) := by
  intro n
  induction n with
  | zero => intro s _; rfl
  | succ n ih =>
      intro s h
      simp [iterBackGesture, handleDataZoom_cleared_nil props s h, ih s h]

theorem setPeriod_history (props : Props) (s : EventsChartState) (r : PeriodArg) :
    ((setPeriod props s r false).1).history = s.history := rfl

theorem setPeriod_effects_onZoom (props : Props) (s : EventsChartState)
    (r : PeriodArg) (b : Bool) (hOZ : props.onZoom = true) :
    (setPeriod props s r b).2 = [Effect.onZoom r.period (getDate r.start) (getDate r.«end»)] := by
  simp [setPeriod, hOZ]

theorem iterBackGesture_drain (props : Props) (hOZ : props.onZoom = true) :
    ∀ (n : Nat) (s : EventsChartState), s.history.length = n →
      (iterBackGesture props n s).2 =
          s.history.reverse.map (fun c => Effect.onZoom c.period c.start c.«end») ∧
        (iterBackGesture props n s).1.history = [] ∧
        iterBackGesture props (n + 1) s = iterBackGesture props n s := by
  intro n
  induction n with
  | zero =>
      intro s h
      have hnil : s.history = [] := List.eq_nil_of_length_eq_zero h
      refine ⟨by simp [iterBackGesture, hnil], by simp [iterBackGesture, hnil], ?_⟩
      rw [iterBackGesture_empty props 1 s hnil, iterBackGesture_empty props 0 s hnil]
  | succ n ih =>
      intro s h
      have hne : s.history ≠ [] := by
        intro hc; rw [hc] at h; exact Nat.succ_ne_zero n h.symm
      have hdec : s.history.dropLast ++ [s.history.getLast hne] = s.history :=
        List.dropLast_append_getLast hne
      set pre := s.history.dropLast with hpre
      set e := s.history.getLast hne with he
      have hlen : pre.length = n := by
        have := congrArg List.length hdec
        simp at this
        omega
      have hstep := handleDataZoom_cleared_concat props s pre e hdec.symm
      have heff := setPeriod_effects_onZoom props { s with history := pre }
        (periodArgOfCurrent e) false hOZ
      have hhist1 : ((setPeriod props { s with history := pre }
          (periodArgOfCurrent e) false).1).history = pre := rfl
      have ihs := ih (setPeriod props { s with history := pre }
        (periodArgOfCurrent e) false).1 (by rw [hhist1]; exact hlen)
      have hrev : s.history.reverse = e :: pre.reverse := by
        rw [← hdec]; simp
      refine ⟨?_, ?_, ?_⟩
      · show (iterBackGesture props (n + 1) s).2 = _
        rw [iterBackGesture, hstep]
        simp only [heff]
        have h1 := ihs.1
        rw [hhist1] at h1
        rw [h1, hrev]
        simp [getDate_map_canonical, periodArgOfCurrent]
      · rw [iterBackGesture, hstep]
        simpa using ihs.2.1
      · show iterBackGesture props (n + 1 + 1) s = iterBackGesture props (n + 1) s
        rw [iterBackGesture, hstep, iterBackGesture, hstep]
        simp only []
        rw [ihs.2.2]

/-! ## Concrete fixtures -/

/-- Props with a relative 14-day period, an `onZoom` callback, zoom flag off. -/
def propsW : Props :=
  { period := some "14d", start := none, «end» := none
    utc := false, zoom := false, onZoom := true }

/-- Props with a relative 14-day period and no `onZoom` callback. -/
def props14d : Props :=
  { period := some "14d", start := none, «end» := none
    utc := false, zoom := false, onZoom := false }

/-- Props with a relative 1-hour period. -/
def props1h : Props :=
  { period := some "1h", start := none, «end» := none
    utc := false, zoom := false, onZoom := false }

/-- Absolute range of exactly 24h0m0s. -/
def props24h0s : Props :=
  { period := none, start := some 0, «end» := some 86400000
    utc := false, zoom := false, onZoom := false }

/-- Absolute range of exactly 24h0m1s. -/
def props24h1s : Props :=
  { period := none, start := some 0, «end» := some 86401000
    utc := false, zoom := false, onZoom := false }

/-- Absolute range of exactly 25 hours. -/
def props25h : Props :=
  { period := none, start := some 0, «end» := some 90000000
    utc := false, zoom := false, onZoom := false }

/-- A purely relative zoom target range. -/
def rW : PeriodArg := { period := some "7d", start := none, «end» := none }

/-- A second zoom target range. -/
def rW2 : PeriodArg := { period := some "3d", start := none, «end» := none }

/-- An absolute zoom target range over the first hour of the epoch. -/
def rDates : PeriodArg :=
  { period := none, start := some (DateVal.date 0), «end» := some (DateVal.date 3600000) }

/-- A state with one pending commit for `rW` and a 14d snapshot. -/
def sPendingW : EventsChartState :=
  { currentPeriod := { period := some "14d", start := none, «end» := none }
    history := []
    zooming := some rW }

/-- An hourly chart: eight points, one per hour. -/
def fsW : SeriesEntry :=
  { data := [(0, 0), (3600000, 0), (7200000, 0), (10800000, 0), (14400000, 0),
             (18000000, 0), (21600000, 0), (25200000, 0)] }

/-- A zoom-drag selection of series indices 3..7. -/
def chartModelW : ChartModel :=
  { xAxis := [{ rangeStart := some 3, rangeEnd := some 7 }], series := [fsW] }

/-- A malformed axis model: only `rangeStart` is null. -/
def halfClearedModel : ChartModel :=
  { xAxis := [{ rangeStart := none, rangeEnd := some 0 }]
    series := [{ data := [(0, 0)] }] }

/-! ## Claims -/

/-- Claim C1: `handleZoomRestore` (the chart `restore` handler) is a no-op on
an empty history; after `N ≥ 1` sequential zoom gestures from a state with
empty history, the oldest (first-pushed) history entry is the pre-zoom
`currentPeriod`, and the handler calls `setPeriod` on exactly that entry with
`saveHistory` false (no new push) and leaves the history empty. -/
theorem handleZoomRestore_restores_oldest (props : Props) (s : EventsChartState)
    (rs : List PeriodArg) (hhist : s.history = []) (hne : rs ≠ []) :
    handleZoomRestore props s = (s, []) ∧
    (zoomGestures props s rs).history.head? = some s.currentPeriod ∧
    handleZoomRestore props (zoomGestures props s rs) =
      ({ (setPeriod props (zoomGestures props s rs)
            (periodArgOfCurrent s.currentPeriod) false).1 with history := [] },
       (setPeriod props (zoomGestures props s rs)
          (periodArgOfCurrent s.currentPeriod) false).2) ∧
    (handleZoomRestore props (zoomGestures props s rs)).1.history = [] := by
  obtain ⟨r, rs', rfl⟩ := List.exists_cons_of_ne_nil hne
  have hh := zoomGestures_history props (r :: rs') s
  rw [hhist] at hh
  simp only [List.nil_append] at hh
  have hhead : (zoomGestures props s (r :: rs')).history.head? = some s.currentPeriod := by
    rw [hh]; rfl
  refine ⟨by simp [handleZoomRestore, hhist], hhead, ?_, ?_⟩
  · rw [handleZoomRestore, hhead]
  · rw [handleZoomRestore, hhead]

/-- Claim C1 witness: instantiation at a concrete one-gesture run. -/
theorem handleZoomRestore_restores_oldest_witness :
    handleZoomRestore propsW (initialState propsW) = (initialState propsW, []) ∧
    (zoomGestures propsW (initialState propsW) [rW]).history.head? =
      some { period := some "14d", start := none, «end» := none } ∧
    handleZoomRestore propsW (zoomGestures propsW (initialState propsW) [rW]) =
      ({ (setPeriod propsW (zoomGestures propsW (initialState propsW) [rW])
            (periodArgOfCurrent { period := some "14d", start := none, «end» := none })
            false).1 with history := [] },
       (setPeriod propsW (zoomGestures propsW (initialState propsW) [rW])
          (periodArgOfCurrent { period := some "14d", start := none, «end» := none })
          false).2) ∧
    (handleZoomRestore propsW (zoomGestures propsW (initialState propsW) [rW])).1.history = [] :=
  handleZoomRestore_restores_oldest propsW (initialState propsW) [rW] rfl
    (by simp)

/-- Claim C2: the controller has at most one outstanding pending commit in any
state (`this.zooming` is a single nullable slot); when `setPeriod` is called a
second time before `finished` fires, the second call overwrites the stored
closure, neither call emits `updateParams` itself, and the single following
`handleChartFinished` performs exactly one external mutation, carrying the
second (latest) range — the first gesture's range is never committed. -/
theorem setPeriod_overwrite_single_pending (props : Props) (s : EventsChartState)
    (r1 r2 : PeriodArg) (b1 b2 : Bool) :
    (∀ t : EventsChartState, countPendingCommits t ≤ 1) ∧
    (setPeriod props (setPeriod props s r1 b1).1 r2 b2).1.zooming = some r2 ∧
    countUpdateParams (setPeriod props s r1 b1).2 = 0 ∧
    countUpdateParams (setPeriod props (setPeriod props s r1 b1).1 r2 b2).2 = 0 ∧
    handleChartFinished (setPeriod props (setPeriod props s r1 b1).1 r2 b2).1 =
      ({ (setPeriod props (setPeriod props s r1 b1).1 r2 b2).1 with
          currentPeriod := saveCurrentPeriod r2, zooming := none },
       [Effect.updateParams r2.period (getDate r2.start) (getDate r2.«end») "1"]) := by
  refine ⟨?_, rfl, ?_, ?_, rfl⟩
  · intro t
    cases h : t.zooming <;> simp [countPendingCommits, h]
  · cases h : props.onZoom <;> simp [setPeriod, countUpdateParams, Effect.isUpdateParams, h]
  · cases h : props.onZoom <;> simp [setPeriod, countUpdateParams, Effect.isUpdateParams, h]

/-- Claim C3: `handleChartFinished` (the `finished` handler) is a no-op when
no commit is pending; when one is pending it emits exactly that one
`updateParams` call and clears the slot; and two consecutive calls with no
intervening `setPeriod` perform the external mutation at most once. -/
theorem handleChartFinished_at_most_once (s : EventsChartState) :
    (s.zooming = none → handleChartFinished s = (s, [])) ∧
    (∀ z, s.zooming = some z →
        handleChartFinished s =
          ({ s with currentPeriod := saveCurrentPeriod z, zooming := none },
           [Effect.updateParams z.period (getDate z.start) (getDate z.«end») "1"])) ∧
    handleChartFinished (handleChartFinished s).1 = ((handleChartFinished s).1, []) ∧
    countUpdateParams
        ((handleChartFinished s).2 ++ (handleChartFinished (handleChartFinished s).1).2) ≤ 1 := by
  refine ⟨?_, ?_, ?_, ?_⟩
  · intro h; simp [handleChartFinished, h]
  · intro z h; simp [handleChartFinished, h]
  · cases h : s.zooming <;> simp [handleChartFinished, h]
  · cases h : s.zooming <;>
      simp [handleChartFinished, h, countUpdateParams, Effect.isUpdateParams]

/-- Claim C3 witness: with a pending commit for `rW`, `finished` commits it
exactly once, and the repeated call does nothing. -/
theorem handleChartFinished_at_most_once_witness :
    handleChartFinished sPendingW =
      ({ currentPeriod := { period := some "7d", start := none, «end» := none }
         history := [], zooming := none },
       [Effect.updateParams (some "7d") none none "1"]) ∧
    countUpdateParams
        ((handleChartFinished sPendingW).2 ++
          (handleChartFinished (handleChartFinished sPendingW).1).2) ≤ 1 :=
  ⟨(handleChartFinished_at_most_once sPendingW).2.1 rW rfl,
   (handleChartFinished_at_most_once sPendingW).2.2.2⟩

/-- Claim C4 counterexample: the claim asserts that an absolute range of
24h0m1s yields daily (hourly only when `end - start ≤ 24` hours), but
`moment(end).diff(start, 'hours')` truncates toward zero, so a 24h0m1s range
has a whole-hour difference of 24 and the code reports hourly even though
86401000 ms exceeds 24 hours. -/
theorem useHourlyInterval_claim_cex :
    useHourlyInterval props24h1s = true ∧ ¬ ((86401000 : Int) ≤ 24 * msPerHour) := by
  constructor
  · decide
  · decide

/-- Claim C4 (amended): `useHourlyInterval` returns hourly iff the range is a
relative period string ending in `h` or exactly `1d`, or, for an absolute
range, the hour difference `end - start` truncated toward zero is at most 24
(so any span under 25 hours is hourly); in particular 24h0m0s and 24h0m1s both
yield hourly, while a 25-hour span yields daily. -/
theorem useHourlyInterval_spec (props : Props) :
    (∀ p, props.period = some p → useHourlyInterval props = (jsEndsWith p "h" || p == "1d")) ∧
    (∀ a b : Timestamp, props.period = none → props.start = some a → props.«end» = some b →
        (useHourlyInterval props = true ↔ Int.tdiv (b - a) msPerHour ≤ 24)) ∧
    useHourlyInterval props1h = true ∧
    useHourlyInterval props14d = false ∧
    useHourlyInterval props24h0s = true ∧
    useHourlyInterval props24h1s = true ∧
    useHourlyInterval props25h = false := by
  refine ⟨?_, ?_, by decide, by decide, by decide, by decide, by decide⟩
  · intro p hp; simp [useHourlyInterval, hp]
  · intro a b h0 ha hb
    simp [useHourlyInterval, momentDiffHours, h0, ha, hb]

/-- Claim C4 witness: the amended characterization evaluated on the 24h0m1s
absolute range. -/
theorem useHourlyInterval_spec_witness :
    useHourlyInterval props24h1s = true ↔ Int.tdiv ((86401000 : Int) - 0) msPerHour ≤ 24 :=
  (useHourlyInterval_spec props24h1s).2.1 0 86401000 rfl rfl rfl

/-- Claim C5: a `datazoom` event whose axis model carries two non-null range
markers that index the plotted series calls `setPeriod` with
`saveHistory = true` on the absolute range whose `start` is the timestamp at
the `rangeStart` index and whose `end` is the timestamp at the `rangeEnd`
index plus one granularity unit (one hour when `useHourlyInterval`, else one
day) minus one second, with `period` null. -/
theorem handleDataZoom_zoom_in (props : Props) (s : EventsChartState)
    (i j : Nat) (axisRest : List Axis) (fs : SeriesEntry) (seriesRest : List SeriesEntry)
    (t1 t2 : Timestamp) (v1 v2 : Int)
    (hi : fs.data[i]? = some (t1, v1)) (hj : fs.data[j]? = some (t2, v2)) :
    handleDataZoom props s
        { xAxis := { rangeStart := some i, rangeEnd := some j } :: axisRest
          series := fs :: seriesRest } =
      some (setPeriod props s
        { period := none
          start := some (DateVal.date t1)
          «end» := some (DateVal.date
            (t2 + (if useHourlyInterval props then msPerHour else msPerDay) - msPerSecond)) }
        true) := by
  simp [handleDataZoom, hi, hj]

/-- Claim C5 witness: selecting indices 3..7 on an hourly chart with
`series[3].timestamp = 10800000` and `series[7].timestamp = 25200000` yields
`start = 10800000` and `end = 25200000 + 1h - 1s = 28799000`. -/
theorem handleDataZoom_zoom_in_witness :
    handleDataZoom props1h (initialState props1h) chartModelW =
      some (setPeriod props1h (initialState props1h)
        { period := none
          start := some (DateVal.date 10800000)
          «end» := some (DateVal.date 28799000) } true) := by
  have h := handleDataZoom_zoom_in props1h (initialState props1h) 3 7 [] fsW []
    10800000 25200000 0 0 (by decide) (by decide)
  have hH : useHourlyInterval props1h = true := by decide
  rw [hH] at h
  simpa [chartModelW, msPerHour, msPerSecond] using h

/-- Claim C6: a `datazoom` event reporting a cleared selection (both range
markers null) pops exactly the most recent history entry and calls
`setPeriod` on it without re-pushing; with empty history it silently swallows
the event; and after `N` zoom gestures from an empty history, `N` back
gestures replay the pushed entries in reverse chronological order (observed
through the `onZoom` effects), empty the history, and an `(N+1)`-th back
gesture is a no-op. -/
theorem handleDataZoom_back_steps (props : Props) (s : EventsChartState)
    (rs : List PeriodArg) (hOZ : props.onZoom = true) (hhist : s.history = []) :
    handleDataZoom props s clearedModel = some (s, []) ∧
    (∀ (t : EventsChartState) (pre : List CurrentPeriod) (e : CurrentPeriod),
        t.history = pre ++ [e] →
        handleDataZoom props t clearedModel =
          some (setPeriod props { t with history := pre } (periodArgOfCurrent e) false)) ∧
    (iterBackGesture props rs.length (zoomGestures props s rs)).2 =
      (pushedEntries s.currentPeriod rs).reverse.map
        (fun c => Effect.onZoom c.period c.start c.«end») ∧
    (iterBackGesture props rs.length (zoomGestures props s rs)).1.history = [] ∧
    iterBackGesture props (rs.length + 1) (zoomGestures props s rs) =
      iterBackGesture props rs.length (zoomGestures props s rs) := by
  have hh := zoomGestures_history props rs s
  rw [hhist] at hh
  simp only [List.nil_append] at hh
  have hlen : (zoomGestures props s rs).history.length = rs.length := by
    rw [hh, pushedEntries_length]
  have hdrain := iterBackGesture_drain props hOZ rs.length (zoomGestures props s rs) hlen
  refine ⟨handleDataZoom_cleared_nil props s hhist,
    fun t pre e ht => handleDataZoom_cleared_concat props t pre e ht, ?_, hdrain.2.1, hdrain.2.2⟩
  rw [hdrain.1, hh]

/-- Claim C6 witness: one zoom gesture pushing the initial 14d snapshot, then
one back gesture replaying it via `onZoom`, and a second back gesture that is
a no-op. -/
theorem handleDataZoom_back_steps_witness :
    (iterBackGesture propsW 1 (zoomGestures propsW (initialState propsW) [rW])).2 =
      [Effect.onZoom (some "14d") none none] ∧
    (iterBackGesture propsW 1 (zoomGestures propsW (initialState propsW) [rW])).1.history = [] ∧
    iterBackGesture propsW 2 (zoomGestures propsW (initialState propsW) [rW]) =
      iterBackGesture propsW 1 (zoomGestures propsW (initialState propsW) [rW]) :=
  ⟨(handleDataZoom_back_steps propsW (initialState propsW) [rW] rfl rfl).2.2.1,
   (handleDataZoom_back_steps propsW (initialState propsW) [rW] rfl rfl).2.2.2.1,
   (handleDataZoom_back_steps propsW (initialState propsW) [rW] rfl rfl).2.2.2.2⟩

/-- An absolute range over 2020-02-01, zoom flag off. -/
def propsDateA : Props :=
  { period := none, start := some 1580515200000, «end» := some 1580601600000
    utc := false, zoom := false, onZoom := false }

/-- The same range values with a different `utc` prop: the period fields are
unchanged (in particular `start` denotes the same instant, however the `Date`
object is reconstructed). -/
def propsDateA2 : Props :=
  { period := none, start := some 1580515200000, «end» := some 1580601600000
    utc := true, zoom := false, onZoom := false }

/-- The same range with `start` advanced by one second. -/
def propsDateB : Props :=
  { period := none, start := some 1580515201000, «end» := some 1580601600000
    utc := false, zoom := false, onZoom := false }

/-- Claim C7: `shouldComponentUpdate` returns `false` exactly when the `zoom`
flag prop is set on the next props or none of `period`, `start`, `end`
changed, where the date-aware comparison equates two dates iff their
millisecond timestamps are equal (and is structural on the `period` string
and on nulls); concretely, a `start` denoting the same instant suppresses the
re-render even when another prop changed, while a `start` advanced by one
second does not. -/
theorem shouldComponentUpdate_gate (props nextProps : Props) :
    (shouldComponentUpdate props nextProps = false ↔
      (nextProps.zoom = true ∨
        isEqualWithDates (pickPeriodKeys props) (pickPeriodKeys nextProps) = true)) ∧
    (isEqualWithDates (pickPeriodKeys props) (pickPeriodKeys nextProps) = true ↔
      (props.period = nextProps.period ∧ props.start = nextProps.start ∧
        props.«end» = nextProps.«end»)) ∧
    shouldComponentUpdate propsDateA propsDateA2 = false ∧
    shouldComponentUpdate propsDateA propsDateB = true := by
  refine ⟨?_, ?_, by decide, by decide⟩
  · constructor
    · intro h
      by_contra hc
      push_neg at hc
      obtain ⟨h1, h2⟩ := hc
      rw [shouldComponentUpdate] at h
      simp only [Bool.not_eq_true] at h1 h2
      rw [h1, h2] at h
      simp at h
    · intro h
      rw [shouldComponentUpdate]
      rcases h with h | h <;> simp [h]
  · rw [isEqualWithDates]
    cases hs : (pickPeriodKeys props).start <;> cases hs' : (pickPeriodKeys nextProps).start <;>
      cases he : (pickPeriodKeys props).«end» <;> cases he' : (pickPeriodKeys nextProps).«end» <;>
        simp_all [optDateEq, dateComparator, pickPeriodKeys, and_assoc]

/-- A state with no pending commit and empty history, under `props14d`. -/
def sW : EventsChartState := initialState props14d

/-- Props with an `onZoom` callback and an absolute current range. -/
def propsOZ : Props :=
  { period := none, start := some 0, «end» := some 86400000
    utc := false, zoom := false, onZoom := true }

/-- Claim C8: when the `onZoom` prop is present, `setPeriod` synchronously
emits exactly the `onZoom` call carrying the canonical-string normalization
(`getDate`) of the requested range and performs no `updateParams` mutation
itself; the `updateParams` call with the same canonical strings is emitted
only later, when the stored pending commit is invoked by the `finished`
handler. -/
theorem setPeriod_onZoom_before_commit (props : Props) (s : EventsChartState)
    (r : PeriodArg) (b : Bool) (hOZ : props.onZoom = true) :
    (setPeriod props s r b).2 = [Effect.onZoom r.period (getDate r.start) (getDate r.«end»)] ∧
    countUpdateParams (setPeriod props s r b).2 = 0 ∧
    (handleChartFinished (setPeriod props s r b).1).2 =
      [Effect.updateParams r.period (getDate r.start) (getDate r.«end») "1"] := by
  refine ⟨setPeriod_effects_onZoom props s r b hOZ, ?_, rfl⟩
  simp [setPeriod, hOZ, countUpdateParams, Effect.isUpdateParams]

/-- Claim C8 witness: zooming to the epoch's first hour fires `onZoom` with
the canonical strings `1970-01-01T00:00:00` / `1970-01-01T01:00:00` and no
mutation; the later `finished` commit carries the same strings. -/
theorem setPeriod_onZoom_before_commit_witness :
    (setPeriod propsOZ sW rDates true).2 =
      [Effect.onZoom none (some "1970-01-01T00:00:00") (some "1970-01-01T01:00:00")] ∧
    countUpdateParams (setPeriod propsOZ sW rDates true).2 = 0 ∧
    (handleChartFinished (setPeriod propsOZ sW rDates true).1).2 =
      [Effect.updateParams none (some "1970-01-01T00:00:00") (some "1970-01-01T01:00:00") "1"] := by
  have h := setPeriod_onZoom_before_commit propsOZ sW rDates true rfl
  refine ⟨?_, h.2.1, ?_⟩
  · rw [h.1]; decide
  · rw [h.2.2]; decide

/-- Claim C9 counterexample: a `datazoom` axis model with exactly one null
range marker is not handled by silently returning — the handler evaluates
`firstSeries.data[null][0]`, an access on `undefined`, and throws (modelled
as `none`), even though the series has data. -/
theorem handleDataZoom_malformed_cex :
    handleDataZoom props14d (initialState props14d) halfClearedModel = none := by
  decide

/-- Claim C9 (amended): absent history entries and absent pending commits are
handled by silently returning (`restore`, the cleared-selection back gesture,
and `finished` are no-ops then), but malformed axis models are not: a
`datazoom` whose axis has exactly one null range marker, or whose markers do
not index the plotted series, makes the handler throw (modelled as `none`)
rather than return. -/
theorem handlers_defensive_amended (props : Props) (s : EventsChartState) :
    (s.history = [] → handleDataZoom props s clearedModel = some (s, [])) ∧
    (s.history = [] → handleZoomRestore props s = (s, [])) ∧
    (s.zooming = none → handleChartFinished s = (s, [])) ∧
    (∀ (j : Nat) (rest : List Axis) (fs : SeriesEntry) (srest : List SeriesEntry),
        handleDataZoom props s
          { xAxis := { rangeStart := none, rangeEnd := some j } :: rest
            series := fs :: srest } = none) ∧
    (∀ (i : Nat) (rest : List Axis) (fs : SeriesEntry) (srest : List SeriesEntry),
        handleDataZoom props s
          { xAxis := { rangeStart := some i, rangeEnd := none } :: rest
            series := fs :: srest } = none) ∧
    (∀ (i j : Nat) (rest : List Axis) (fs : SeriesEntry) (srest : List SeriesEntry),
        fs.data.length ≤ i →
        handleDataZoom props s
          { xAxis := { rangeStart := some i, rangeEnd := some j } :: rest
            series := fs :: srest } = none) := by
  refine ⟨fun h => handleDataZoom_cleared_nil props s h, ?_, ?_, ?_, ?_, ?_⟩
  · intro h; simp [handleZoomRestore, h]
  · intro h; simp [handleChartFinished, h]
  · intro j rest fs srest
    simp [handleDataZoom]
  · intro i rest fs srest
    simp [handleDataZoom]
  · intro i j rest fs srest h
    have hii : fs.data[i]? = none := by
      rw [List.getElem?_eq_none_iff]
      exact h
    simp [handleDataZoom, hii]

/-- Claim C9 amendment witness: the defensive branches at a concrete empty
state, and a concrete malformed model with an out-of-range index. -/
theorem handlers_defensive_amended_witness :
    handleDataZoom props14d (initialState props14d) clearedModel =
      some (initialState props14d, []) ∧
    handleZoomRestore props14d (initialState props14d) = (initialState props14d, []) ∧
    handleChartFinished (initialState props14d) = (initialState props14d, []) ∧
    handleDataZoom props14d (initialState props14d)
      { xAxis := [{ rangeStart := some 5, rangeEnd := some 0 }]
        series := [{ data := [(0, 0)] }] } = none :=
  ⟨(handlers_defensive_amended props14d (initialState props14d)).1 rfl,
   (handlers_defensive_amended props14d (initialState props14d)).2.1 rfl,
   (handlers_defensive_amended props14d (initialState props14d)).2.2.1 rfl,
   (handlers_defensive_amended props14d (initialState props14d)).2.2.2.2.2 5 0 []
     { data := [(0, 0)] } [] (by decide)⟩

/-- Claim C10: `getDate` maps an absent (null) date to null, and
`saveCurrentPeriod` applied to props whose `start` and `end` are absent
stores the snapshot `{period, start: null, end: null}` — a purely relative
range stays fully relative after normalization. -/
theorem getDate_absent (p : Option String) (u z oz : Bool) :
    getDate none = none ∧
    saveCurrentPeriod (periodArgOfProps
        { period := p, start := none, «end» := none, utc := u, zoom := z, onZoom := oz }) =
      { period := p, start := none, «end» := none } := by
  exact ⟨rfl, rfl⟩

end EventsChart
